import Mathlib

/-!
Verification development for the ahl-utm-tracking service.

The definitions below are a shallow embedding of the JavaScript sources:
the Gallabox webhook handler and click-ingestion endpoint of server.js,
the Mongoose schema of db.js, and the Google-Sheets export of
google-sheets-sync.js.  The Mongo collection is modelled as a list of
records; dates are natural numbers (milliseconds since the epoch);
external effects (the sheet append call, the generated Mongo object id,
the random suffix of direct-record ids) are made explicit parameters.
-/

namespace UtmTracking

/-! JavaScript-style string helpers.  A JS string is falsy exactly when
it is empty; null and undefined are modelled as none. -/

def jsTruthy (o : Option String) : Option String :=
  match o with
  | some s => if s = "" then none else some s
  | none => none

/-- JS a or b for a an optional string and b a string default. -/
def jsOr (a : Option String) (b : String) : String :=
  match jsTruthy a with
  | some s => s
  | none => b

/-- JS a or b or null for optional strings, as in event.contactId or event.contact.id or null. -/
def jsOrNull (a b : Option String) : Option String :=
  match jsTruthy a with
  | some s => some s
  | none => jsTruthy b

/-- Models the regex replace of all non-digits with the empty string. -/
def digitsOnly (s : String) : String :=
  ⟨s.toList.filter Char.isDigit⟩

/-- Models the regex replace of leading zeros with the empty string. -/
def stripLeadingZeros (s : String) : String :=
  ⟨s.toList.dropWhile (fun c => c == '0')⟩

/-- Models the JS String startsWith method. -/
def strStartsWith (pre s : String) : Bool :=
  pre.toList.isPrefixOf s.toList

/-- The phone normalization of the webhook handler: the sender number comes
from event.whatsapp.from with leading zeros stripped (empty when absent),
and the country code 91 is prepended when the result is nonempty and does
not already start with it. -/
def normalizedPhoneStr (whatsappFrom : Option String) : String :=
  let senderPhone := stripLeadingZeros (whatsappFrom.getD "")
  if senderPhone != "" && !(strStartsWith "91" senderPhone) then
    "91" ++ senderPhone
  else
    senderPhone

/-! The data model: one document of the utmClicks collection, with the
defaults of the Mongoose schema in db.js. -/

structure ClickRecord where
  id : String
  source : String := "direct_message"
  medium : String := "whatsapp"
  campaign : String := "organic"
  content : String := "none"
  placement : String := "N/A"
  original_params : List (String × String) := []
  hasEngaged : Bool := false
  phoneNumber : Option String := none
  contactId : Option String := none
  conversationId : Option String := none
  contactName : Option String := none
  lastMessage : Option String := none
  attribution_source : String := "unknown"
  timestamp : Nat
  click_time : Nat
  engagedAt : Option Nat := none
  syncedToSheets : Bool := false
  lastSynced : Option Nat := none
  deriving Repr, DecidableEq

abbrev Store := List ClickRecord

/-- Mongoose findById; findById with an undefined id behaves as a query
for a null id and matches nothing. -/
def findById (sid : Option String) (store : Store) : Option ClickRecord :=
  match sid with
  | some i => store.find? (fun r => r.id == i)
  | none => none

/-- Mongoose findByIdAndUpdate with a plain update object: every document
whose id matches is rewritten by f. -/
def updateById (i : String) (f : ClickRecord → ClickRecord) (store : Store) : Store :=
  store.map (fun r => if r.id == i then f r else r)

/-- Insert a record into a list kept in descending timestamp order. -/
def insertByTs (r : ClickRecord) : Store → Store
  | [] => [r]
  | x :: xs => if x.timestamp < r.timestamp then r :: x :: xs else x :: insertByTs r xs

/-- Sort a list of records by timestamp, newest first, as the Mongo sort
on timestamp minus one does. -/
def sortByTsDesc : Store → Store
  | [] => []
  | x :: xs => insertByTs x (sortByTsDesc xs)

/-- Mongoose findOne with a sort on timestamp descending: the newest
record satisfying the predicate. -/
def findNewest (p : ClickRecord → Bool) (store : Store) : Option ClickRecord :=
  (sortByTsDesc (store.filter p)).head?

/-! The webhook event, as read by the handler in server.js. -/

structure UtmFields where
  source : String
  medium : String
  campaign : String
  content : String
  deriving Repr, DecidableEq

/-- The default utmData object of the handler. -/
def defaultUtm : UtmFields := ⟨"direct_message", "whatsapp", "organic", "none"⟩

def utmOf (r : ClickRecord) : UtmFields := ⟨r.source, r.medium, r.campaign, r.content⟩

/-- The result of base64 decoding and JSON parsing the context field:
either the parse throws, or it yields an object with an optional
session id and its embedded UTM fields. -/
inductive ContextToken where
  | malformed
  | decoded (sessionId : Option String) (utm : UtmFields)
  deriving Repr, DecidableEq

structure WebhookEvent where
  channelNumber : Option String
  whatsappFrom : Option String
  contactId : Option String
  contactInnerId : Option String
  conversationId : Option String
  contactName : Option String
  textBody : Option String
  interactiveTitle : Option String
  context : Option ContextToken
  deriving Repr, DecidableEq

/-- Process environment and external nondeterminism made explicit: the
configured WhatsApp number, the STORE_DIRECT_MESSAGES flag, the random
suffix used for new direct-record ids, and the object id Mongo generates
when a document is created without one. -/
structure Env where
  whatsappNumber : String := "919137279145"
  storeDirectMessages : Bool := false
  directSuffix : String
  generatedObjectId : String
  deriving Repr, DecidableEq

def eventContactId (ev : WebhookEvent) : Option String :=
  jsOrNull ev.contactId ev.contactInnerId

def eventConversationId (ev : WebhookEvent) : Option String :=
  jsTruthy ev.conversationId

def eventContactName (ev : WebhookEvent) : Option String :=
  jsTruthy ev.contactName

/-- messageContent: the text body, else the interactive list-reply title,
else the literal fallback. -/
def messageContentOf (ev : WebhookEvent) : String :=
  jsOr ev.textBody (jsOr ev.interactiveTitle "No text content")

/-! The attribution matcher: the state threaded through the four
matching priorities of the handler. -/

structure MatchState where
  sessionId : Option String
  utm : UtmFields
  attribution : String
  store : Store
  deriving Repr, DecidableEq

/-- Matching Priority 1: the context parameter.  A decode failure or a
missing session id falls through with the defaults in place. -/
def priority1 (ev : WebhookEvent) (store : Store) : MatchState :=
  match ev.context with
  | some (ContextToken.decoded sidOpt utm) =>
    match jsTruthy sidOpt with
    | some sid => { sessionId := some sid, utm := utm, attribution := "context", store := store }
    | none => { sessionId := none, utm := defaultUtm, attribution := "direct", store := store }
  | _ => { sessionId := none, utm := defaultUtm, attribution := "direct", store := store }

def fiveMinutesMs : Nat := 5 * 60 * 1000

/-- Matching Priority 2: Gallabox identifiers.  On a match the click
record is enriched with the contact and conversation ids at once. -/
def priority2 (now : Nat) (cid convid cname : Option String) (m : MatchState) : MatchState :=
  if m.sessionId.isNone && (cid.isSome || convid.isSome) then
    match findNewest (fun r => !r.hasEngaged && decide (now - fiveMinutesMs ≤ r.timestamp)) m.store with
    | some r =>
      { sessionId := some r.id,
        utm := utmOf r,
        attribution := "gallabox_id_match",
        store := updateById r.id (fun d =>
          { d with contactId := cid, conversationId := convid, contactName := cname }) m.store }
    | none => m
  else m

/-- Matching Priority 3: phone number. -/
def priority3 (nphone : String) (m : MatchState) : MatchState :=
  if m.sessionId.isNone then
    match findNewest (fun r => r.phoneNumber == some nphone && !r.hasEngaged) m.store with
    | some r => { m with sessionId := some r.id, utm := utmOf r, attribution := "phone_match" }
    | none => m
  else m

def directRecordId (now : Nat) (suffix : String) : String :=
  "direct-" ++ toString now ++ "-" ++ suffix

/-- The direct message handling block: an existing direct conversation is
updated in place; otherwise a new direct record is created when the
configuration allows it, else the message is ignored. -/
def directHandling (env : Env) (now : Nat) (nphone : String)
    (cid convid cname : Option String) (msg : String) (m : MatchState) : MatchState :=
  if m.sessionId.isNone then
    match convid with
    | some cv =>
      match m.store.find? (fun r => r.conversationId == some cv && r.source == "direct_message") with
      | some r =>
        { m with
          sessionId := some r.id,
          attribution := "existing_direct",
          store := updateById r.id (fun d =>
            { d with lastMessage := some msg, engagedAt := some now }) m.store }
      | none =>
        if env.storeDirectMessages then
          let sid := directRecordId now env.directSuffix
          { m with
            sessionId := some sid,
            attribution := "new_direct",
            store := m.store ++ [{
              id := sid,
              source := m.utm.source, medium := m.utm.medium,
              campaign := m.utm.campaign, content := m.utm.content,
              timestamp := now, click_time := now,
              hasEngaged := true,
              phoneNumber := some nphone,
              lastMessage := some msg,
              engagedAt := some now,
              syncedToSheets := false,
              contactId := cid, conversationId := convid, contactName := cname }] }
        else
          { m with sessionId := some "not_stored", attribution := "ignored_direct" }
    | none => m
  else m

/-- The updateData object of the handler, applied to an existing document:
contactId and conversationId are written unconditionally, while
contactName and lastMessage are only spread in when truthy. -/
def applyUpdateData (now : Nat) (nphone : String) (attr : String)
    (cid convid cname : Option String) (msg : String) (r : ClickRecord) : ClickRecord :=
  { r with
    hasEngaged := true,
    phoneNumber := some nphone,
    engagedAt := some now,
    syncedToSheets := false,
    attribution_source := attr,
    contactId := cid,
    conversationId := convid,
    contactName := if cname.isSome then cname else r.contactName,
    lastMessage := if msg != "" then some msg else r.lastMessage }

/-- A document created with only an id, UTM fields and a timestamp; every
other field takes its schema default. -/
def freshRecord (i : String) (utm : UtmFields) (now : Nat) : ClickRecord :=
  { id := i, source := utm.source, medium := utm.medium, campaign := utm.campaign,
    content := utm.content, timestamp := now, click_time := now }

/-- The id a created document ends up with: the session id when defined,
else the object id Mongo generates. -/
def mongoCreateId (sid : Option String) (env : Env) : String :=
  sid.getD env.generatedObjectId

/-- The update-existing-records block at the end of the handler: skipped
for new direct records and ignored messages; otherwise the document under
the session id is updated when it exists and created otherwise. -/
def upsertPhase (env : Env) (now : Nat) (nphone : String)
    (cid convid cname : Option String) (msg : String) (m : MatchState) : Store :=
  if m.attribution != "new_direct" && m.sessionId != some "not_stored" then
    match m.sessionId, findById m.sessionId m.store with
    | some sid, some _ =>
      updateById sid (applyUpdateData now nphone m.attribution cid convid cname msg) m.store
    | _, _ =>
      m.store ++ [applyUpdateData now nphone m.attribution cid convid cname msg
        (freshRecord (mongoCreateId m.sessionId env) m.utm now)]
  else m.store

/-- The four matching priorities run in order on the event. -/
def matchPhase (env : Env) (now : Nat) (nphone : String) (ev : WebhookEvent) (store : Store) :
    MatchState :=
  directHandling env now nphone (eventContactId ev) (eventConversationId ev)
    (eventContactName ev) (messageContentOf ev)
    (priority3 nphone
      (priority2 now (eventContactId ev) (eventConversationId ev) (eventContactName ev)
        (priority1 ev store)))

inductive WebhookResponse where
  | skipped
  | missingPhone
  | processed (sessionId : Option String) (source : String) (attribution : String)
  deriving Repr, DecidableEq

/-- The Gallabox webhook handler: channel filter, phone normalization and
rejection, the matching priorities, then the upsert, and finally the
processed response built from the match outcome. -/
def gallaboxWebhook (env : Env) (now : Nat) (ev : WebhookEvent) (store : Store) :
    WebhookResponse × Store :=
  let receivingNumber := digitsOnly (ev.channelNumber.getD "")
  if receivingNumber != env.whatsappNumber then (.skipped, store)
  else
    let nphone := normalizedPhoneStr ev.whatsappFrom
    if nphone = "" then (.missingPhone, store)
    else
      let m := matchPhase env now nphone ev store
      let finalStore := upsertPhase env now nphone (eventContactId ev)
        (eventConversationId ev) (eventContactName ev) (messageContentOf ev) m
      (.processed m.sessionId m.utm.source m.attribution, finalStore)

/-! The click ingestion endpoint of server.js. -/

structure ClickPayload where
  session_id : String
  original_params : Option (List (String × String)) := none
  source : Option String := none
  medium : Option String := none
  campaign : Option String := none
  content : Option String := none
  placement : Option String := none
  deriving Repr, DecidableEq

def lookupParam (ps : List (String × String)) (k : String) : Option String :=
  (ps.find? (fun kv => kv.1 == k)).map (fun kv => kv.2)

def setParam (ps : List (String × String)) (k v : String) : List (String × String) :=
  if (ps.find? (fun kv => kv.1 == k)).isSome then
    ps.map (fun kv => if kv.1 == k then (k, v) else kv)
  else ps ++ [(k, v)]

/-- The store-click endpoint: field defaults are computed, and a document
is created only when no document with the session id exists. -/
def storeClick (payload : ClickPayload) (now : Nat) (store : Store) : Store :=
  let params := payload.original_params.getD []
  let src := jsOr (lookupParam params "source") (jsOr payload.source "facebook")
  let med := jsOr (lookupParam params "medium") (jsOr payload.medium "fb_ads")
  let camp := jsOr (lookupParam params "campaign") (jsOr payload.campaign "unknown")
  let cont := jsOr (lookupParam params "content") (jsOr payload.content "unknown")
  let plc := jsOr (lookupParam params "placement") (jsOr payload.placement "unknown")
  let origParams :=
    setParam (setParam (setParam (setParam (setParam params "campaign" camp)
      "medium" med) "source" src) "content" cont) "placement" plc
  match findById (some payload.session_id) store with
  | some _ => store
  | none =>
    store ++ [{
      id := payload.session_id,
      source := src, medium := med, campaign := camp, content := cont, placement := plc,
      original_params := origParams,
      click_time := now, timestamp := now,
      hasEngaged := false, syncedToSheets := false }]

/-! The export mirror of google-sheets-sync.js. -/

/-- The selection predicate of the sync query. -/
def syncEligible (r : ClickRecord) : Bool :=
  r.hasEngaged && !r.syncedToSheets && r.source != "direct_message"

/-- The documents a sync run selects: the eligible ones, newest first,
capped at 250. -/
def syncSelection (store : Store) : Store :=
  (sortByTsDesc (store.filter syncEligible)).take 250

/-- Marking documents synced after a confirmed append. -/
def markSynced (ids : List String) (now : Nat) (store : Store) : Store :=
  store.map (fun r =>
    if ids.contains r.id then { r with syncedToSheets := true, lastSynced := some now } else r)

inductive SyncOutcome where
  | done (count : Nat)
  | appendFailed
  deriving Repr, DecidableEq

/-- One execution of the try body of syncToSheets, with the outcome of
the sheet append call abstracted to a boolean: an empty selection returns
early, a successful append is followed by marking the batch synced, and a
failed append throws before any document is touched. -/
def syncAttempt (appendOk : Bool) (now : Nat) (store : Store) : SyncOutcome × Store :=
  if (syncSelection store).length = 0 then (.done 0, store)
  else if appendOk then
    (.done (syncSelection store).length,
      markSynced ((syncSelection store).map (fun r => r.id)) now store)
  else
    (.appendFailed, store)

/-- The outcome of a whole sync run: the value returned, or the error
finally thrown to the caller. -/
inductive SyncResult where
  | ok (count : Nat)
  | error (msg : String)
  deriving Repr, DecidableEq

structure SyncRun where
  result : SyncResult
  delays : List Nat
  attemptsMade : Nat
  store : Store
  deriving Repr, DecidableEq

def maxRetries : Nat := 3

/-- The retry loop of syncToSheets: while attempt is below the maximum,
run one attempt; on failure increment the counter, rethrow once the
budget is exhausted, and otherwise sleep attempt times 2000 milliseconds
before retrying.  appendOk n gives the outcome of the append call in the
n-th attempt; fuel bounds the recursion and is set to the retry budget. -/
def syncLoopAux (appendOk : Nat → Bool) (now : Nat) (store : Store)
    (attempt : Nat) (delays : List Nat) (fuel : Nat) : SyncRun :=
  match fuel with
  | 0 => { result := .error "loop exhausted", delays := delays, attemptsMade := attempt, store := store }
  | Nat.succ fuel' =>
    if attempt < maxRetries then
      match syncAttempt (appendOk (attempt + 1)) now store with
      | (.done n, store') =>
        { result := .ok n, delays := delays, attemptsMade := attempt + 1, store := store' }
      | (.appendFailed, _) =>
        if maxRetries ≤ attempt + 1 then
          { result := .error "Final sync failure", delays := delays,
            attemptsMade := attempt + 1, store := store }
        else
          syncLoopAux appendOk now store (attempt + 1) (delays ++ [(attempt + 1) * 2000]) fuel'
    else
      { result := .error "loop exhausted", delays := delays, attemptsMade := attempt, store := store }

def syncToSheetsRun (appendOk : Nat → Bool) (now : Nat) (store : Store) : SyncRun :=
  syncLoopAux appendOk now store 0 [] maxRetries

/-- The change-stream handler of the real-time sync for one qualifying
document: append first, and mark the document synced only when the
append succeeded. -/
def realtimeChange (appendOk : Bool) (now : Nat) (doc : ClickRecord) (store : Store) : Store :=
  if appendOk then markSynced [doc.id] now store else store

/-! The operations of the system as a step relation on the store, and
the stores reachable from an empty collection. -/

inductive SystemStep : Store → Store → Prop
  | click (payload : ClickPayload) (now : Nat) (s : Store) :
      SystemStep s (storeClick payload now s)
  | webhook (env : Env) (now : Nat) (ev : WebhookEvent) (s : Store) :
      SystemStep s (gallaboxWebhook env now ev s).2
  | batchSync (appendOk : Nat → Bool) (now : Nat) (s : Store) :
      SystemStep s (syncToSheetsRun appendOk now s).store
  | realtime (appendOk : Bool) (now : Nat) (doc : ClickRecord) (s : Store) :
      SystemStep s (realtimeChange appendOk now doc s)

inductive Reachable : Store → Prop
  | empty : Reachable []
  | step {s s' : Store} : Reachable s → SystemStep s s' → Reachable s'

/-! Basic facts about the sorted queries. -/

theorem mem_insertByTs {a r : ClickRecord} {l : Store} :
    a ∈ insertByTs r l ↔ a = r ∨ a ∈ l := by
  induction l with
  | nil => simp [insertByTs]
  | cons x xs ih =>
    by_cases h : x.timestamp < r.timestamp
    · simp [insertByTs, h]
    · simp [insertByTs, h, ih]
      tauto

theorem mem_sortByTsDesc {a : ClickRecord} {l : Store} :
    a ∈ sortByTsDesc l ↔ a ∈ l := by
  induction l with
  | nil => simp [sortByTsDesc]
  | cons x xs ih => simp [sortByTsDesc, mem_insertByTs, ih]

theorem length_insertByTs (r : ClickRecord) (l : Store) :
    (insertByTs r l).length = l.length + 1 := by
  induction l with
  | nil => rfl
  | cons x xs ih =>
    by_cases h : x.timestamp < r.timestamp
    · simp [insertByTs, h]
    · simp [insertByTs, h, ih]

theorem length_sortByTsDesc (l : Store) :
    (sortByTsDesc l).length = l.length := by
  induction l with
  | nil => rfl
  | cons x xs ih => simp [sortByTsDesc, length_insertByTs, ih]

/-- The descending-timestamp order on records. -/
def tsGe (a b : ClickRecord) : Prop := b.timestamp ≤ a.timestamp

theorem pairwise_insertByTs {r : ClickRecord} {l : Store}
    (h : l.Pairwise tsGe) : (insertByTs r l).Pairwise tsGe := by
  induction l with
  | nil => simp [insertByTs, List.Pairwise]
  | cons x xs ih =>
    rcases List.pairwise_cons.mp h with ⟨hx, hxs⟩
    by_cases hc : x.timestamp < r.timestamp
    · simp only [insertByTs, if_pos hc]
      refine List.pairwise_cons.mpr ⟨?_, h⟩
      intro b hb
      rcases List.mem_cons.mp hb with hb | hb
      · subst hb; exact le_of_lt hc
      · exact le_trans (hx b hb) (le_of_lt hc)
    · simp only [insertByTs, if_neg hc]
      refine List.pairwise_cons.mpr ⟨?_, ih hxs⟩
      intro b hb
      rcases mem_insertByTs.mp hb with hb | hb
      · subst hb; exact le_of_not_lt hc
      · exact hx b hb

theorem pairwise_sortByTsDesc (l : Store) :
    (sortByTsDesc l).Pairwise tsGe := by
  induction l with
  | nil => simp [sortByTsDesc]
  | cons x xs ih => exact pairwise_insertByTs ih

theorem findNewest_some {p : ClickRecord → Bool} {s : Store} {r : ClickRecord}
    (h : findNewest p s = some r) : r ∈ s ∧ p r = true := by
  unfold findNewest at h
  have hmem : r ∈ sortByTsDesc (s.filter p) := by
    cases hs : sortByTsDesc (s.filter p) with
    | nil => rw [hs] at h; simp at h
    | cons a l => rw [hs] at h; simp at h; subst h; exact List.mem_cons_self a l
  have := mem_sortByTsDesc.mp hmem
  exact ⟨(List.mem_filter.mp this).1, (List.mem_filter.mp this).2⟩

/-! The record-level invariant used for the phone-match claim: a document
gets a phone number only together with engagement. -/

def RecInv (r : ClickRecord) : Prop :=
  r.phoneNumber.isSome = true → r.hasEngaged = true

/-- Pointwise conditions on a record transformer under which it keeps the
identity, never loses engagement, and keeps the record invariant. -/
def KeepsRecord (f : ClickRecord → ClickRecord) : Prop :=
  ∀ r : ClickRecord, (f r).id = r.id ∧
    (r.hasEngaged = true → (f r).hasEngaged = true) ∧
    (RecInv r → RecInv (f r))

/-- Decomposition of one store transition: existing documents are
rewritten in place by a well-behaved transformer and new documents
satisfying the invariant are appended. -/
def GoodStep (s s' : Store) : Prop :=
  ∃ f news, s' = s.map f ++ news ∧ KeepsRecord f ∧ ∀ n ∈ news, RecInv n

theorem goodStep_refl (s : Store) : GoodStep s s := by
  refine ⟨id, [], by simp, fun r => ⟨rfl, fun h => h, fun h => h⟩, by simp⟩

theorem goodStep_trans {s t u : Store} (h1 : GoodStep s t) (h2 : GoodStep t u) :
    GoodStep s u := by
  rcases h1 with ⟨f, news, rfl, hf, hnews⟩
  rcases h2 with ⟨g, news2, rfl, hg, hnews2⟩
  refine ⟨g ∘ f, news.map g ++ news2, ?_, ?_, ?_⟩
  · simp [List.map_append, List.append_assoc]
  · intro r
    refine ⟨(hg (f r)).1.trans (hf r).1, fun h => (hg (f r)).2.1 ((hf r).2.1 h),
      fun h => (hg (f r)).2.2 ((hf r).2.2 h)⟩
  · intro n hn
    rcases List.mem_append.mp hn with hn | hn
    · rcases List.mem_map.mp hn with ⟨m, hm, rfl⟩
      exact (hg m).2.2 (hnews m hm)
    · exact hnews2 n hn

theorem goodStep_map {s : Store} {f : ClickRecord → ClickRecord}
    (hf : KeepsRecord f) : GoodStep s (s.map f) := by
  exact ⟨f, [], by simp, hf, by simp⟩

theorem keepsRecord_updateById {i : String} {f : ClickRecord → ClickRecord}
    (hid : ∀ r, (f r).id = r.id)
    (heng : ∀ r, r.hasEngaged = true → (f r).hasEngaged = true)
    (hinv : ∀ r, RecInv r → RecInv (f r)) :
    KeepsRecord (fun r => if r.id == i then f r else r) := by
  intro r
  by_cases h : r.id == i
  · simp only [h, if_pos]
    exact ⟨hid r, heng r, hinv r⟩
  · simp [h]

theorem goodStep_updateById {s : Store} {i : String} {f : ClickRecord → ClickRecord}
    (hid : ∀ r, (f r).id = r.id)
    (heng : ∀ r, r.hasEngaged = true → (f r).hasEngaged = true)
    (hinv : ∀ r, RecInv r → RecInv (f r)) :
    GoodStep s (updateById i f s) :=
  goodStep_map (keepsRecord_updateById hid heng hinv)

theorem goodStep_append {s : Store} {n : ClickRecord} (hn : RecInv n) :
    GoodStep s (s ++ [n]) := by
  refine ⟨id, [n], by simp, fun r => ⟨rfl, fun h => h, fun h => h⟩, by simpa using hn⟩

/-! Each operation of the system is a good step. -/

theorem priority1_store (ev : WebhookEvent) (s : Store) : (priority1 ev s).store = s := by
  unfold priority1
  split
  · split <;> rfl
  · rfl

theorem goodStep_priority2 (now : Nat) (cid convid cname : Option String) (m : MatchState) :
    GoodStep m.store (priority2 now cid convid cname m).store := by
  unfold priority2
  split
  · split
    · exact goodStep_updateById (fun r => rfl) (fun r h => h) (fun r h => h)
    · exact goodStep_refl _
  · exact goodStep_refl _

theorem priority3_store (nphone : String) (m : MatchState) :
    (priority3 nphone m).store = m.store := by
  unfold priority3
  split
  · split <;> rfl
  · rfl

theorem goodStep_directHandling (env : Env) (now : Nat) (nphone : String)
    (cid convid cname : Option String) (msg : String) (m : MatchState) :
    GoodStep m.store (directHandling env now nphone cid convid cname msg m).store := by
  unfold directHandling
  split
  · split
    · split
      · exact goodStep_updateById (fun r => rfl) (fun r h => h) (fun r h => h)
      · split
        · exact goodStep_append (fun h => rfl)
        · exact goodStep_refl _
    · exact goodStep_refl _
  · exact goodStep_refl _

theorem goodStep_upsertPhase (env : Env) (now : Nat) (nphone : String)
    (cid convid cname : Option String) (msg : String) (m : MatchState) :
    GoodStep m.store (upsertPhase env now nphone cid convid cname msg m) := by
  unfold upsertPhase
  split
  · split
    · exact goodStep_updateById (fun r => rfl) (fun r h => rfl) (fun r h hh => rfl)
    · exact goodStep_append (fun h => rfl)
  · exact goodStep_refl _

theorem goodStep_matchPhase (env : Env) (now : Nat) (nphone : String) (ev : WebhookEvent)
    (s : Store) : GoodStep s (matchPhase env now nphone ev s).store := by
  unfold matchPhase
  have h2 := goodStep_priority2 now (eventContactId ev) (eventConversationId ev)
    (eventContactName ev) (priority1 ev s)
  rw [priority1_store ev s] at h2
  have h4 := goodStep_directHandling env now nphone (eventContactId ev)
    (eventConversationId ev) (eventContactName ev) (messageContentOf ev)
    (priority3 nphone (priority2 now (eventContactId ev) (eventConversationId ev)
      (eventContactName ev) (priority1 ev s)))
  rw [priority3_store] at h4
  exact goodStep_trans h2 h4

theorem goodStep_webhook (env : Env) (now : Nat) (ev : WebhookEvent) (s : Store) :
    GoodStep s (gallaboxWebhook env now ev s).2 := by
  unfold gallaboxWebhook
  simp only []
  split
  · exact goodStep_refl _
  · split
    · exact goodStep_refl _
    · have hm := goodStep_matchPhase env now (normalizedPhoneStr ev.whatsappFrom) ev s
      have hu := goodStep_upsertPhase env now (normalizedPhoneStr ev.whatsappFrom)
        (eventContactId ev) (eventConversationId ev) (eventContactName ev)
        (messageContentOf ev)
        (matchPhase env now (normalizedPhoneStr ev.whatsappFrom) ev s)
      exact goodStep_trans hm hu

theorem goodStep_storeClick (payload : ClickPayload) (now : Nat) (s : Store) :
    GoodStep s (storeClick payload now s) := by
  unfold storeClick
  split
  · exact goodStep_refl _
  · exact goodStep_append (fun h => Bool.noConfusion h)

theorem goodStep_markSynced (ids : List String) (now : Nat) (s : Store) :
    GoodStep s (markSynced ids now s) := by
  unfold markSynced
  refine goodStep_map ?_
  intro r
  by_cases h : r.id ∈ ids
  · simp [h, RecInv]
  · simp [h, RecInv]

theorem goodStep_syncAttempt (appendOk : Bool) (now : Nat) (s : Store) :
    GoodStep s (syncAttempt appendOk now s).2 := by
  unfold syncAttempt
  split
  · exact goodStep_refl _
  · split
    · exact goodStep_markSynced _ _ _
    · exact goodStep_refl _

theorem goodStep_syncLoopAux (appendOk : Nat → Bool) (now : Nat) (s : Store) :
    ∀ (fuel attempt : Nat) (delays : List Nat),
      GoodStep s (syncLoopAux appendOk now s attempt delays fuel).store := by
  intro fuel
  induction fuel with
  | zero => intro attempt delays; exact goodStep_refl _
  | succ fuel ih =>
    intro attempt delays
    unfold syncLoopAux
    split
    · split
      · rename_i n store' heq
        have hgs := goodStep_syncAttempt (appendOk (attempt + 1)) now s
        rw [heq] at hgs
        exact hgs
      · split
        · exact goodStep_refl _
        · exact ih _ _
    · exact goodStep_refl _

theorem goodStep_realtimeChange (appendOk : Bool) (now : Nat) (doc : ClickRecord) (s : Store) :
    GoodStep s (realtimeChange appendOk now doc s) := by
  unfold realtimeChange
  split
  · exact goodStep_markSynced _ _ _
  · exact goodStep_refl _

theorem systemStep_goodStep {s s' : Store} (h : SystemStep s s') : GoodStep s s' := by
  cases h with
  | click payload now s => exact goodStep_storeClick payload now s
  | webhook env now ev s => exact goodStep_webhook env now ev s
  | batchSync appendOk now s => exact goodStep_syncLoopAux appendOk now s _ _ _
  | realtime appendOk now doc s => exact goodStep_realtimeChange appendOk now doc s

/-- Every reachable store satisfies the record invariant: no document
carries a phone number without being engaged. -/
theorem reachable_recInv {s : Store} (h : Reachable s) : ∀ r ∈ s, RecInv r := by
  induction h with
  | empty => intro r hr; cases hr
  | step hreach hstep ih =>
    rcases systemStep_goodStep hstep with ⟨f, news, rfl, hf, hnews⟩
    intro r hr
    rcases List.mem_append.mp hr with hr | hr
    · rcases List.mem_map.mp hr with ⟨m, hm, rfl⟩
      exact (hf m).2.2 (ih m hm)
    · exact hnews r hr

/-- The Priority-3 phone-match query of the webhook handler, on the
normalized phone of an event. -/
def phoneMatchQuery (nphone : String) (s : Store) : Option ClickRecord :=
  findNewest (fun r => r.phoneNumber == some nphone && !r.hasEngaged) s

/-- C2: on every store reachable through the operations of this system,
the Priority-3 phone-match query never selects a record whose source is
direct_message.  This follows from the invariant that a record carries a
phone number only once it is engaged, while the query demands an
unengaged record. -/
theorem phoneMatch_never_selects_direct {s : Store} (hs : Reachable s) (ev : WebhookEvent) :
    (phoneMatchQuery (normalizedPhoneStr ev.whatsappFrom) s).all
      (fun r => r.source != "direct_message") = true := by
  cases hq : phoneMatchQuery (normalizedPhoneStr ev.whatsappFrom) s with
  | none => rfl
  | some r =>
    exfalso
    rcases findNewest_some hq with ⟨hmem, hp⟩
    rcases (Bool.and_eq_true _ _).mp hp with ⟨hpe, hne⟩
    have hinv := reachable_recInv hs r hmem
    have hsome : r.phoneNumber.isSome = true := by
      cases hpn : r.phoneNumber with
      | none => rw [hpn] at hpe; exact Bool.noConfusion hpe
      | some v => rfl
    have heng : r.hasEngaged = true := hinv hsome
    rw [heng] at hne
    exact Bool.noConfusion hne

def c2PayloadW : ClickPayload :=
  { session_id := "s-dm", source := some "direct_message" }

def c2EventW : WebhookEvent :=
  { channelNumber := some "919137279145", whatsappFrom := some "09876543210",
    contactId := none, contactInnerId := none, conversationId := none,
    contactName := none, textBody := some "hello", interactiveTitle := none,
    context := none }

theorem phoneMatch_never_selects_direct_witness :
    (phoneMatchQuery (normalizedPhoneStr c2EventW.whatsappFrom) (storeClick c2PayloadW 5 [])).all
      (fun r => r.source != "direct_message") = true :=
  phoneMatch_never_selects_direct
    (Reachable.step Reachable.empty (SystemStep.click c2PayloadW 5 [])) c2EventW

/-- C5: no operation of the system regresses engagement: any record that
is engaged before a step is still present at its position afterwards,
with the same id and still engaged. -/
theorem hasEngaged_never_regresses {s s' : Store} (h : SystemStep s s') :
    ∀ (k : Nat) (hk : k < s.length), s[k].hasEngaged = true →
      ∃ hk' : k < s'.length, s'[k].hasEngaged = true ∧ s'[k].id = s[k].id := by
  rcases systemStep_goodStep h with ⟨f, news, rfl, hf, hnews⟩
  intro k hk hEng
  have hk1 : k < (s.map f).length := by simpa using hk
  have hk' : k < (s.map f ++ news).length := by
    simp only [List.length_append]
    omega
  refine ⟨hk', ?_, ?_⟩
  · rw [List.getElem_append_left hk1, List.getElem_map]
    exact (hf s[k]).2.1 hEng
  · rw [List.getElem_append_left hk1, List.getElem_map]
    exact (hf s[k]).1

def c5RecW : ClickRecord :=
  { id := "s1", source := "facebook", timestamp := 10, click_time := 10,
    hasEngaged := true, phoneNumber := some "919876543210" }

theorem hasEngaged_never_regresses_witness :
    ∃ hk' : 0 < (realtimeChange true 7 c5RecW [c5RecW]).length,
      (realtimeChange true 7 c5RecW [c5RecW])[0].hasEngaged = true ∧
      (realtimeChange true 7 c5RecW [c5RecW])[0].id = [c5RecW][0].id :=
  hasEngaged_never_regresses (SystemStep.realtime true 7 c5RecW [c5RecW]) 0
    (by decide) (by decide)

/-- C7: in the batch sync and in the real-time sync, a failed sink append
leaves the store untouched: no record is marked syncedToSheets and no
lastSynced timestamp is written, for the single attempt and for a whole
run whose appends all fail. -/
theorem append_failure_marks_nothing (now : Nat) (s : Store) (doc : ClickRecord) :
    (syncAttempt false now s).2 = s ∧
    realtimeChange false now doc s = s ∧
    (syncToSheetsRun (fun _ => false) now s).store = s := by
  refine ⟨?_, rfl, ?_⟩
  · unfold syncAttempt
    split
    · rfl
    · rfl
  · by_cases h0 : (syncSelection s).length = 0
    · simp [syncToSheetsRun, syncLoopAux, syncAttempt, h0, maxRetries]
    · simp [syncToSheetsRun, syncLoopAux, syncAttempt, h0, maxRetries]

/-! Once a priority has produced a session id, every later priority is
skipped. -/

theorem priority2_skip (now : Nat) (cid convid cname : Option String) (m : MatchState)
    (h : m.sessionId.isNone = false) :
    priority2 now cid convid cname m = m := by
  unfold priority2
  rw [h]
  simp

theorem priority3_skip (nphone : String) (m : MatchState)
    (h : m.sessionId.isNone = false) :
    priority3 nphone m = m := by
  unfold priority3
  rw [h]
  simp

theorem directHandling_skip (env : Env) (now : Nat) (nphone : String)
    (cid convid cname : Option String) (msg : String) (m : MatchState)
    (h : m.sessionId.isNone = false) :
    directHandling env now nphone cid convid cname msg m = m := by
  unfold directHandling
  rw [h]
  simp

/-- C1: the strategy chain is evaluated in strict priority order and the
first match wins: for every event whose context token decodes to an
object with a nonempty session id, the match phase resolves to exactly
that session id with attribution context, the store is untouched by
matching (no lower-priority strategy runs, whatever identifiers and
records are present), and the response reports that session id, the
token UTM source and attribution context. -/
theorem context_token_wins {env : Env} {now : Nat} {ev : WebhookEvent} {s : Store}
    {sid : String} {utm : UtmFields}
    (hctx : ev.context = some (ContextToken.decoded (some sid) utm))
    (hsid : sid ≠ "")
    (hch : digitsOnly (ev.channelNumber.getD "") = env.whatsappNumber)
    (hph : normalizedPhoneStr ev.whatsappFrom ≠ "") :
    matchPhase env now (normalizedPhoneStr ev.whatsappFrom) ev s =
      { sessionId := some sid, utm := utm, attribution := "context", store := s } ∧
    (gallaboxWebhook env now ev s).1 =
      WebhookResponse.processed (some sid) utm.source "context" := by
  have h1 : priority1 ev s =
      { sessionId := some sid, utm := utm, attribution := "context", store := s } := by
    simp [priority1, hctx, jsTruthy, hsid]
  have hmatch : matchPhase env now (normalizedPhoneStr ev.whatsappFrom) ev s =
      { sessionId := some sid, utm := utm, attribution := "context", store := s } := by
    unfold matchPhase
    rw [h1]
    rw [priority2_skip now (eventContactId ev) (eventConversationId ev) (eventContactName ev)
      ⟨some sid, utm, "context", s⟩ rfl]
    rw [priority3_skip (normalizedPhoneStr ev.whatsappFrom)
      ⟨some sid, utm, "context", s⟩ rfl]
    rw [directHandling_skip env now (normalizedPhoneStr ev.whatsappFrom)
      (eventContactId ev) (eventConversationId ev) (eventContactName ev)
      (messageContentOf ev) ⟨some sid, utm, "context", s⟩ rfl]
  refine ⟨hmatch, ?_⟩
  unfold gallaboxWebhook
  rw [if_neg (by simp [hch]), if_neg hph, hmatch]

def c1EnvW : Env :=
  { directSuffix := "abcd1234", generatedObjectId := "oid-1" }

def c1EventW : WebhookEvent :=
  { channelNumber := some "+91 9137279145", whatsappFrom := some "08765432109",
    contactId := some "C77", contactInnerId := none, conversationId := some "V77",
    contactName := some "Alice", textBody := some "hi there", interactiveTitle := none,
    context := some (ContextToken.decoded (some "s1")
      ⟨"instagram", "social", "summer", "ad1"⟩) }

theorem context_token_wins_witness :
    matchPhase c1EnvW 900 (normalizedPhoneStr c1EventW.whatsappFrom) c1EventW [] =
      { sessionId := some "s1", utm := ⟨"instagram", "social", "summer", "ad1"⟩,
        attribution := "context", store := [] } ∧
    (gallaboxWebhook c1EnvW 900 c1EventW []).1 =
      WebhookResponse.processed (some "s1") "instagram" "context" :=
  context_token_wins (by decide) (by decide) (by decide) (by decide)

/-- C10: a validated event with a resolvable phone but no context token,
no contact or conversation identifier and no phone match falls through
every strategy, yet still executes the upsert with an undefined session
id and attribution direct: a fresh record is created under a generated
object id with attribution_source direct, and the handler responds with
the processed (HTTP 200) status rather than ignored_direct. -/
theorem unmatched_direct_fallthrough {env : Env} {now : Nat} {ev : WebhookEvent} {s : Store}
    (hch : digitsOnly (ev.channelNumber.getD "") = env.whatsappNumber)
    (hph : normalizedPhoneStr ev.whatsappFrom ≠ "")
    (hctx : ev.context = none)
    (hcid : eventContactId ev = none)
    (hconv : eventConversationId ev = none)
    (hq : phoneMatchQuery (normalizedPhoneStr ev.whatsappFrom) s = none) :
    (gallaboxWebhook env now ev s).1 =
      WebhookResponse.processed none "direct_message" "direct" ∧
    (gallaboxWebhook env now ev s).2 =
      s ++ [applyUpdateData now (normalizedPhoneStr ev.whatsappFrom) "direct"
        none none (eventContactName ev) (messageContentOf ev)
        (freshRecord env.generatedObjectId defaultUtm now)] := by
  have h1 : priority1 ev s =
      { sessionId := none, utm := defaultUtm, attribution := "direct", store := s } := by
    simp [priority1, hctx]
  have hmatch : matchPhase env now (normalizedPhoneStr ev.whatsappFrom) ev s =
      { sessionId := none, utm := defaultUtm, attribution := "direct", store := s } := by
    unfold matchPhase
    rw [h1, hcid, hconv]
    have h2 : priority2 now none none (eventContactName ev)
        { sessionId := none, utm := defaultUtm, attribution := "direct", store := s } =
        { sessionId := none, utm := defaultUtm, attribution := "direct", store := s } := by
      unfold priority2
      simp
    rw [h2]
    have h3 : priority3 (normalizedPhoneStr ev.whatsappFrom)
        { sessionId := none, utm := defaultUtm, attribution := "direct", store := s } =
        { sessionId := none, utm := defaultUtm, attribution := "direct", store := s } := by
      unfold priority3
      unfold phoneMatchQuery at hq
      simp [hq]
    rw [h3]
    unfold directHandling
    simp
  have hups : upsertPhase env now (normalizedPhoneStr ev.whatsappFrom)
      (eventContactId ev) (eventConversationId ev) (eventContactName ev)
      (messageContentOf ev)
      { sessionId := none, utm := defaultUtm, attribution := "direct", store := s } =
      s ++ [applyUpdateData now (normalizedPhoneStr ev.whatsappFrom) "direct"
        none none (eventContactName ev) (messageContentOf ev)
        (freshRecord env.generatedObjectId defaultUtm now)] := by
    unfold upsertPhase
    rw [hcid, hconv]
    simp [findById, mongoCreateId]
  constructor
  · unfold gallaboxWebhook
    rw [if_neg (by simp [hch]), if_neg hph, hmatch]
    rfl
  · unfold gallaboxWebhook
    rw [if_neg (by simp [hch]), if_neg hph, hmatch]
    exact hups

def c10EnvW : Env :=
  { directSuffix := "ffff0000", generatedObjectId := "oid-77" }

def c10EventW : WebhookEvent :=
  { channelNumber := some "919137279145", whatsappFrom := some "07654321098",
    contactId := none, contactInnerId := none, conversationId := none,
    contactName := none, textBody := some "hello", interactiveTitle := none,
    context := none }

/-! Helper lemmas for the idempotence analysis of the upsert block. -/

theorem applyUpdateData_idem (now : Nat) (nphone : String) (attr : String)
    (cid convid cname : Option String) (msg : String) (r : ClickRecord) :
    applyUpdateData now nphone attr cid convid cname msg
      (applyUpdateData now nphone attr cid convid cname msg r) =
    applyUpdateData now nphone attr cid convid cname msg r := by
  cases cname <;> by_cases hm : (msg != "") = true <;>
    simp [applyUpdateData, hm]

theorem find?_map_pred {α : Type} (p : α → Bool) (g : α → α)
    (h : ∀ r, p (g r) = p r) (l : List α) :
    List.find? p (l.map g) = (List.find? p l).map g := by
  induction l with
  | nil => rfl
  | cons x xs ih =>
    by_cases hx : p x = true
    · simp [List.find?_cons, h x, hx]
    · simp only [List.map_cons, List.find?_cons, h x]
      rw [Bool.not_eq_true] at hx
      rw [hx]
      exact ih

theorem updateById_idem (i : String) (f : ClickRecord → ClickRecord)
    (hid : ∀ r, (f r).id = r.id) (hidem : ∀ r, f (f r) = f r) (s : Store) :
    updateById i f (updateById i f s) = updateById i f s := by
  unfold updateById
  rw [List.map_map]
  apply List.map_congr_left
  intro r _
  by_cases h : (r.id == i) = true
  · simp only [Function.comp_apply, h, if_pos]
    rw [if_pos (by rw [hid r]; exact h)]
    exact hidem r
  · rw [Bool.not_eq_true] at h
    simp only [Function.comp_apply, h]
    simp [h]

/-- C3 counterexample: the record-update step of the webhook is not
idempotent for every event and store.  For an event that matches no
strategy and carries no conversation id, the matcher leaves the session
id undefined with attribution direct; applying the update step twice to
an empty store (clock held fixed) creates two records, while applying it
once creates one. -/
theorem upsert_not_idempotent_counterexample :
    upsertPhase ⟨"919137279145", false, "aaaa1111", "oid-9"⟩ 1000 "919111111111"
      none none none "hi"
      ⟨none, defaultUtm, "direct",
        upsertPhase ⟨"919137279145", false, "aaaa1111", "oid-9"⟩ 1000 "919111111111"
          none none none "hi" ⟨none, defaultUtm, "direct", []⟩⟩
    ≠ upsertPhase ⟨"919137279145", false, "aaaa1111", "oid-9"⟩ 1000 "919111111111"
        none none none "hi" ⟨none, defaultUtm, "direct", []⟩ := by
  decide

/-- C3 amended: the record-update step is idempotent under retry whenever
the match phase produced a defined session id (and trivially when the
step is skipped for new_direct or not_stored outcomes): applying it twice
with identical input and a fixed clock equals applying it once.  When the
session id is undefined — the unmatched phone-only fall-through — each
application creates a fresh record, so idempotence fails there (see the
counterexample). -/
theorem upsert_idempotent_when_sid_defined (env : Env) (now : Nat) (nphone : String)
    (cid convid cname : Option String) (msg : String) (sid : String) (utm : UtmFields)
    (attr : String) (s : Store) :
    upsertPhase env now nphone cid convid cname msg
      ⟨some sid, utm, attr,
        upsertPhase env now nphone cid convid cname msg ⟨some sid, utm, attr, s⟩⟩
    = upsertPhase env now nphone cid convid cname msg ⟨some sid, utm, attr, s⟩ := by
  have hpred : ∀ r : ClickRecord,
      ((if r.id == sid then applyUpdateData now nphone attr cid convid cname msg r else r).id
        == sid) = (r.id == sid) := by
    intro r
    by_cases h : (r.id == sid) = true
    · rw [if_pos h]
      have : (applyUpdateData now nphone attr cid convid cname msg r).id = r.id := rfl
      rw [this]
    · rw [Bool.not_eq_true] at h
      rw [h]
      simp [h]
  unfold upsertPhase
  dsimp only
  simp only [findById]
  by_cases hc : (attr != "new_direct" && (some sid != some "not_stored" : Bool)) = true
  · rw [if_pos hc, if_pos hc]
    cases hfind : List.find? (fun r => r.id == sid) s with
    | some r =>
      dsimp only
      simp only [updateById]
      rw [find?_map_pred (fun x => x.id == sid)
        (fun x => if x.id == sid
          then applyUpdateData now nphone attr cid convid cname msg x else x) hpred s, hfind]
      exact updateById_idem sid (applyUpdateData now nphone attr cid convid cname msg)
        (fun x => rfl) (applyUpdateData_idem now nphone attr cid convid cname msg) s
    | none =>
      dsimp only
      have hnew : List.find? (fun r => r.id == sid)
          [applyUpdateData now nphone attr cid convid cname msg
            (freshRecord (mongoCreateId (some sid) env) utm now)] =
          some (applyUpdateData now nphone attr cid convid cname msg
            (freshRecord (mongoCreateId (some sid) env) utm now)) := by
        rw [List.find?_cons]
        have hb : ((applyUpdateData now nphone attr cid convid cname msg
            (freshRecord (mongoCreateId (some sid) env) utm now)).id == sid) = true := by
          show (mongoCreateId (some sid) env == sid) = true
          simp [mongoCreateId]
        rw [hb]
      rw [List.find?_append, hfind, hnew]
      dsimp only [Option.or]
      have hmap : s.map (fun r => if r.id == sid
          then applyUpdateData now nphone attr cid convid cname msg r else r) = s := by
        have hall := List.find?_eq_none.mp hfind
        conv_rhs => rw [(List.map_id s).symm]
        apply List.map_congr_left
        intro r hr
        have hne : ¬ (r.id == sid) = true := hall r hr
        rw [Bool.not_eq_true] at hne
        rw [hne]
        simp
      have hsingle : [applyUpdateData now nphone attr cid convid cname msg
          (freshRecord (mongoCreateId (some sid) env) utm now)].map
          (fun r => if r.id == sid
            then applyUpdateData now nphone attr cid convid cname msg r else r) =
          [applyUpdateData now nphone attr cid convid cname msg
            (freshRecord (mongoCreateId (some sid) env) utm now)] := by
        simp only [List.map_cons, List.map_nil]
        have hid : ((applyUpdateData now nphone attr cid convid cname msg
            (freshRecord (mongoCreateId (some sid) env) utm now)).id == sid) = true := by
          show (mongoCreateId (some sid) env == sid) = true
          simp [mongoCreateId]
        rw [hid]
        simp only [if_pos]
        rw [applyUpdateData_idem]
      calc updateById sid (applyUpdateData now nphone attr cid convid cname msg)
            (s ++ [applyUpdateData now nphone attr cid convid cname msg
              (freshRecord (mongoCreateId (some sid) env) utm now)])
          = s.map (fun r => if r.id == sid
              then applyUpdateData now nphone attr cid convid cname msg r else r) ++
            [applyUpdateData now nphone attr cid convid cname msg
              (freshRecord (mongoCreateId (some sid) env) utm now)].map
              (fun r => if r.id == sid
                then applyUpdateData now nphone attr cid convid cname msg r else r) := by
            unfold updateById
            rw [List.map_append]
        _ = s ++ [applyUpdateData now nphone attr cid convid cname msg
              (freshRecord (mongoCreateId (some sid) env) utm now)] := by
            rw [hmap, hsingle]
  · rw [if_neg hc, if_neg hc]

theorem unmatched_direct_fallthrough_witness :
    (gallaboxWebhook c10EnvW 444 c10EventW []).1 =
      WebhookResponse.processed none "direct_message" "direct" ∧
    (gallaboxWebhook c10EnvW 444 c10EventW []).2 =
      [] ++ [applyUpdateData 444 (normalizedPhoneStr c10EventW.whatsappFrom) "direct"
        none none (eventContactName c10EventW) (messageContentOf c10EventW)
        (freshRecord c10EnvW.generatedObjectId defaultUtm 444)] :=
  unmatched_direct_fallthrough (by decide) (by decide) (by decide) (by decide)
    (by decide) (by decide)

/-! C4: frame behaviour of the updateData object. -/

def c4EnvW : Env :=
  { directSuffix := "bbbb2222", generatedObjectId := "oid-4" }

def c4RecW : ClickRecord :=
  { id := "s1", source := "instagram", timestamp := 10, click_time := 10,
    contactId := some "C123", conversationId := some "V456" }

def c4EventW : WebhookEvent :=
  { channelNumber := some "919137279145", whatsappFrom := some "09876543210",
    contactId := none, contactInnerId := none, conversationId := none,
    contactName := none, textBody := some "hello", interactiveTitle := none,
    context := some (ContextToken.decoded (some "s1")
      ⟨"instagram", "social", "summer", "ad1"⟩) }

/-- C4 counterexample: the claim fails for contactId and conversationId.
A record with a known contactId is matched via its context token by an
event that carries no contact identifier; after the update the stored
contactId has been blanked out to null, and likewise the conversationId. -/
theorem updateData_blanks_ids_counterexample :
    c4RecW.contactId = some "C123" ∧ c4RecW.conversationId = some "V456" ∧
    eventContactId c4EventW = none ∧ eventConversationId c4EventW = none ∧
    ((gallaboxWebhook c4EnvW 500 c4EventW [c4RecW]).2.map ClickRecord.contactId = [none]) ∧
    ((gallaboxWebhook c4EnvW 500 c4EventW [c4RecW]).2.map ClickRecord.conversationId = [none]) := by
  decide

/-- C4 amended: in the updateData object, only contactName and lastMessage
are guarded: they are overwritten exactly when the event supplies a truthy
(nonempty) value and are preserved otherwise.  contactId and
conversationId are written unconditionally with the event values, so an
absent identifier blanks out a previously known one. -/
theorem updateData_field_overwrite (now : Nat) (nphone : String) (attr : String)
    (cid convid cname : Option String) (msg : String) (r : ClickRecord) :
    (applyUpdateData now nphone attr cid convid cname msg r).contactId = cid ∧
    (applyUpdateData now nphone attr cid convid cname msg r).conversationId = convid ∧
    (cname = none →
      (applyUpdateData now nphone attr cid convid cname msg r).contactName = r.contactName) ∧
    (∀ v, cname = some v →
      (applyUpdateData now nphone attr cid convid cname msg r).contactName = some v) ∧
    (msg = "" →
      (applyUpdateData now nphone attr cid convid cname msg r).lastMessage = r.lastMessage) ∧
    (msg ≠ "" →
      (applyUpdateData now nphone attr cid convid cname msg r).lastMessage = some msg) := by
  refine ⟨rfl, rfl, ?_, ?_, ?_, ?_⟩
  · intro h
    subst h
    simp [applyUpdateData]
  · intro v h
    subst h
    simp [applyUpdateData]
  · intro h
    subst h
    simp [applyUpdateData]
  · intro h
    simp [applyUpdateData, bne_iff_ne, h]

def c4AmRecW : ClickRecord :=
  { id := "s9", timestamp := 3, click_time := 3,
    contactName := some "Known", lastMessage := some "old" }

theorem updateData_field_overwrite_witness :
    (applyUpdateData 7 "9199" "context" none none none "hi" c4AmRecW).contactId = none ∧
    (applyUpdateData 7 "9199" "context" none none none "hi" c4AmRecW).contactName
      = c4AmRecW.contactName ∧
    (applyUpdateData 7 "9199" "context" none none (some "Bob") "hi" c4AmRecW).contactName
      = some "Bob" ∧
    (applyUpdateData 7 "9199" "context" none none none "" c4AmRecW).lastMessage
      = c4AmRecW.lastMessage ∧
    (applyUpdateData 7 "9199" "context" none none none "hi" c4AmRecW).lastMessage
      = some "hi" :=
  ⟨(updateData_field_overwrite 7 "9199" "context" none none none "hi" c4AmRecW).1,
   (updateData_field_overwrite 7 "9199" "context" none none none "hi" c4AmRecW).2.2.1 rfl,
   (updateData_field_overwrite 7 "9199" "context" none none (some "Bob") "hi" c4AmRecW).2.2.2.1
     "Bob" rfl,
   (updateData_field_overwrite 7 "9199" "context" none none none "" c4AmRecW).2.2.2.2.1 rfl,
   (updateData_field_overwrite 7 "9199" "context" none none none "hi" c4AmRecW).2.2.2.2.2
     (by decide)⟩

/-- C6: the batch export selects exactly the eligible records: every
selected record is engaged, unsynced and not a direct message and comes
from the store; at most 250 are selected; the selection is ordered newest
first; and when the eligible backlog fits in the cap, every eligible
record is selected. -/
theorem sync_selection_spec (s : Store) :
    (∀ r ∈ syncSelection s, (r.hasEngaged = true ∧ r.syncedToSheets = false ∧
        r.source ≠ "direct_message") ∧ r ∈ s) ∧
    (syncSelection s).length ≤ 250 ∧
    (syncSelection s).Pairwise tsGe ∧
    ((s.filter syncEligible).length ≤ 250 →
      ∀ r ∈ s, syncEligible r = true → r ∈ syncSelection s) := by
  refine ⟨?_, ?_, ?_, ?_⟩
  · intro r hr
    have hsorted : r ∈ sortByTsDesc (s.filter syncEligible) :=
      List.take_subset 250 _ hr
    have hfilter := mem_sortByTsDesc.mp hsorted
    have hmem := (List.mem_filter.mp hfilter).1
    have hp := (List.mem_filter.mp hfilter).2
    have hp' : (r.hasEngaged = true ∧ r.syncedToSheets = false) ∧
        r.source ≠ "direct_message" := by
      simpa [syncEligible, bne_iff_ne] using hp
    exact ⟨⟨hp'.1.1, hp'.1.2, hp'.2⟩, hmem⟩
  · unfold syncSelection
    exact List.length_take_le 250 (sortByTsDesc (s.filter syncEligible))
  · exact List.Pairwise.sublist (List.take_sublist 250 _) (pairwise_sortByTsDesc _)
  · intro hlen r hmem hp
    have hin : r ∈ sortByTsDesc (s.filter syncEligible) :=
      mem_sortByTsDesc.mpr (List.mem_filter.mpr ⟨hmem, hp⟩)
    unfold syncSelection
    rw [List.take_of_length_le (by rw [length_sortByTsDesc]; exact hlen)]
    exact hin

def c6RecW : ClickRecord :=
  { id := "e1", source := "facebook", timestamp := 5, click_time := 5,
    hasEngaged := true, syncedToSheets := false }

theorem sync_selection_spec_witness :
    c6RecW ∈ syncSelection [c6RecW] ∧
    (c6RecW.hasEngaged = true ∧ c6RecW.syncedToSheets = false ∧
      c6RecW.source ≠ "direct_message") ∧
    (syncSelection [c6RecW]).length ≤ 250 :=
  ⟨(sync_selection_spec [c6RecW]).2.2.2 (by decide) c6RecW (by decide) (by decide),
   ((sync_selection_spec [c6RecW]).1 c6RecW
     ((sync_selection_spec [c6RecW]).2.2.2 (by decide) c6RecW (by decide) (by decide))).1,
   (sync_selection_spec [c6RecW]).2.1⟩

/-- C8: the whole batch sync is attempted at most 3 times (and at least
once); the waits between attempts are exactly attempt-number times 2
seconds, in order, for every attempt that failed short of the budget; and
the run surfaces the final error to the caller exactly when there was
work to sync and the append of every one of the three attempts failed. -/
theorem sync_retry_policy (appendOk : Nat → Bool) (now : Nat) (s : Store) :
    1 ≤ (syncToSheetsRun appendOk now s).attemptsMade ∧
    (syncToSheetsRun appendOk now s).attemptsMade ≤ 3 ∧
    (syncToSheetsRun appendOk now s).delays =
      (List.range' 1 ((syncToSheetsRun appendOk now s).attemptsMade - 1)).map
        (fun n => n * 2000) ∧
    ((syncToSheetsRun appendOk now s).result = SyncResult.error "Final sync failure" ↔
      ((syncSelection s).length ≠ 0 ∧ appendOk 1 = false ∧ appendOk 2 = false ∧
        appendOk 3 = false)) := by
  by_cases h0 : (syncSelection s).length = 0
  · simp [syncToSheetsRun, syncLoopAux, syncAttempt, h0, maxRetries, List.range']
  · cases h1 : appendOk 1 <;> cases h2 : appendOk 2 <;> cases h3 : appendOk 3 <;>
      simp [syncToSheetsRun, syncLoopAux, syncAttempt, h0, h1, h2, h3, maxRetries,
        List.range']

/-- The normalization rule exactly as the specification words it: strip
leading zeros, then prepend the country code 91 unless the number already
starts with it. -/
def specNormalizePhone (raw : String) : String :=
  if strStartsWith "91" (stripLeadingZeros raw) then stripLeadingZeros raw
  else "91" ++ stripLeadingZeros raw

/-- C9: phone normalization strips leading zeros and prepends 91 unless
the stripped number already starts with it (whenever a number remains
after stripping, the handler computes exactly the normalization the
specification describes), and an event whose normalized phone is empty is
rejected with the client error before any matching, with the store
unchanged. -/
theorem phone_normalization_and_rejection :
    (∀ raw : String, stripLeadingZeros raw ≠ "" →
      normalizedPhoneStr (some raw) = specNormalizePhone raw) ∧
    (∀ (env : Env) (now : Nat) (ev : WebhookEvent) (s : Store),
      digitsOnly (ev.channelNumber.getD "") = env.whatsappNumber →
      normalizedPhoneStr ev.whatsappFrom = "" →
      gallaboxWebhook env now ev s = (WebhookResponse.missingPhone, s)) := by
  constructor
  · intro raw h
    unfold normalizedPhoneStr specNormalizePhone
    by_cases hs : strStartsWith "91" (stripLeadingZeros raw) = true
    · simp [hs]
    · simp [hs, h]
  · intro env now ev s hch hempty
    unfold gallaboxWebhook
    rw [if_neg (by simp [hch]), if_pos hempty]

def c9EnvW : Env :=
  { directSuffix := "cccc3333", generatedObjectId := "oid-5" }

def c9EventW : WebhookEvent :=
  { channelNumber := some "919137279145", whatsappFrom := some "000",
    contactId := none, contactInnerId := none, conversationId := none,
    contactName := none, textBody := some "hello", interactiveTitle := none,
    context := none }

theorem phone_normalization_and_rejection_witness :
    normalizedPhoneStr (some "0812") = specNormalizePhone "0812" ∧
    normalizedPhoneStr (some "0091999") = specNormalizePhone "0091999" ∧
    gallaboxWebhook c9EnvW 3 c9EventW [] = (WebhookResponse.missingPhone, []) :=
  ⟨phone_normalization_and_rejection.1 "0812" (by decide),
   phone_normalization_and_rejection.1 "0091999" (by decide),
   phone_normalization_and_rejection.2 c9EnvW 3 c9EventW [] (by decide) (by decide)⟩

end UtmTracking
